import Mathlib

/-!
Verification of the circular-buffer arch layer for non-OS systems with a
host-interface IP core (`circbuf-nooshostif.c`), checked against its
natural-language specification.

The embedding models the shared-memory envelope (one lock byte, three
reserved bytes, ring header, payload), the registry table, instance
creation, buffer allocation/connection/free, and the one-byte spinlock,
with machine integers as `Nat` (size_t arithmetic taken mod 2^32 for the
32-bit Nios II target where wraparound matters) and every store to the
shared window recorded in an explicit write trace.
-/

/-- Width of `size_t`/pointers on the Nios II target: 32 bits. -/
def wordModulus : Nat := 2 ^ 32

/-- The macro `CIRCBUF_HOSTIF_UNLOCK` (0x00). -/
def CIRCBUF_HOSTIF_UNLOCK : Nat := 0x00

/-- The macro `CIRCBUF_HOSTIF_LOCK`: 0x01 when built with `CONFIG_HOSTIF_PCP == TRUE`,
0x02 otherwise.  The build flag is the `Bool` parameter. -/
def CIRCBUF_HOSTIF_LOCK (pcp : Bool) : Nat := if pcp then 0x01 else 0x02

/-- Modelled from the spec: `tCircBufHeader` is defined outside the given
sources; the spec lists its fields as bufferSize, writeOffset, readOffset,
dataCount and two 32-bit statistics counters (enqueued, dropped), i.e. six
32-bit fields, 24 bytes. -/
def sizeofCircBufHeader : Nat := 24

/-- The value `sizeof(tCircBufHostiBuffer)`: a one-byte lock at offset 0, three
reserved bytes, then `tCircBufHeader` (the envelope of a shared slot). -/
def sizeofCircBufHostiBuffer : Nat := 4 + sizeofCircBufHeader

/-- The value `offsetof(tCircBufHostiBuffer, circBufHeader)`: the header follows the
lock byte and the three reserved bytes. -/
def offsetCircBufHeader : Nat := 4

/-- The macro `GET_QUEUE_BUF_BASE`: recovers the envelope base from a header pointer
by subtracting the header's offset, in `size_t` arithmetic (mod 2^32). -/
def GET_QUEUE_BUF_BASE (pHeader : Nat) : Nat :=
  (pHeader + (wordModulus - offsetCircBufHeader)) % wordModulus

/-- The `tCircBufError` return codes reachable in this layer. -/
inductive TCircBufError where
  | kCircBufOk
  | kCircBufNoResource
  deriving DecidableEq, Repr

/-- The `tHostifInstanceId` values used by the registry table. -/
inductive THostifInstanceId where
  | kHostifInstIdU2KQueue
  | kHostifInstIdK2UQueue
  | kHostifInstIdTxGenQueue
  | kHostifInstIdTxNmtQueue
  | kHostifInstIdTxSyncQueue
  | kHostifInstIdInvalid
  deriving DecidableEq, Repr

/-- The constant `NR_OF_CIRC_BUFFERS`: the registry table has eleven entries. -/
def NR_OF_CIRC_BUFFERS : Nat := 11

/-- The constant registry table `hostifInstance[NR_OF_CIRC_BUFFERS]`. -/
def hostifInstance : List THostifInstanceId :=
  [ .kHostifInstIdU2KQueue,
    .kHostifInstIdK2UQueue,
    .kHostifInstIdInvalid,
    .kHostifInstIdInvalid,
    .kHostifInstIdTxGenQueue,
    .kHostifInstIdTxNmtQueue,
    .kHostifInstIdTxSyncQueue,
    .kHostifInstIdInvalid,
    .kHostifInstIdInvalid,
    .kHostifInstIdInvalid,
    .kHostifInstIdInvalid ]

/-- The structure `tCircBufInstance`, the fields this layer touches.  Pointers are byte
addresses; `none` is the C null pointer.  `pCircBufArchInstance = none`
marks a local-only queue, `some h` the host-interface handle. -/
structure CircBufInstance where
  pCircBufArchInstance : Option Nat
  bufferId : Nat
  pCircBufHeader : Option Nat
  pCircBuf : Option Nat
  deriving DecidableEq, Repr

/-- The registry-table lookup `hostifInstance[id_p]` (ids are kept below
`NR_OF_CIRC_BUFFERS`, where the table is total). -/
def hostifInstanceEntry (id : Nat) : THostifInstanceId :=
  hostifInstance.getD id .kHostifInstIdInvalid

/-- The function `circbuf_createInstance`: classifies the instance by the registry table;
for a shared slot it requires `hostif_getInstance(0)` (the `hostifGet0`
parameter) and returns null (`none`) when that is absent.  `old` is the
prior contents of the global `instance_l` slot. -/
def circbuf_createInstance (hostifGet0 : Option Nat) (old : CircBufInstance)
    (id : Nat) : Option CircBufInstance :=
  if hostifInstanceEntry id = .kHostifInstIdInvalid then
    some { old with pCircBufArchInstance := none, bufferId := id }
  else
    match hostifGet0 with
    | none => none
    | some h => some { old with pCircBufArchInstance := some h, bufferId := id }

/-- Result of `circbuf_allocBuffer`: return code, updated instance, the
value left in `*pSize_p`, the argument passed to `OPLK_MALLOC` (if called),
and the trace of byte stores the function performs on buffer memory
(address, value) — in the shared branch the single `HOSTIF_WR8` of the
lock byte, in the local branch none. -/
structure AllocResult where
  ret : TCircBufError
  inst : CircBufInstance
  sizeOut : Nat
  mallocReq : Option Nat
  writes : List (Nat × Nat)
  deriving DecidableEq, Repr

/-- The function `circbuf_allocBuffer`.  `malloc` models `OPLK_MALLOC` (address or null);
`getBuf` models the outcome of `hostif_getBuf` for this instance's slot
(`none` = failure, `some (base, capacity)` = success with the reported
buffer base and size).  `sizeIn` is the incoming `*pSize_p`. -/
def circbuf_allocBuffer (malloc : Nat → Option Nat)
    (getBuf : Option (Nat × Nat)) (inst : CircBufInstance)
    (sizeIn : Nat) : AllocResult :=
  match inst.pCircBufArchInstance with
  | none =>
      let size := (sizeIn + sizeofCircBufHeader) % wordModulus
      match malloc size with
      | none =>
          { ret := .kCircBufNoResource,
            inst := { inst with pCircBufHeader := none },
            sizeOut := sizeIn, mallocReq := some size, writes := [] }
      | some a =>
          { ret := .kCircBufOk,
            inst := { inst with pCircBufHeader := some a,
                                pCircBuf := some (a + sizeofCircBufHeader) },
            sizeOut := sizeIn, mallocReq := some size, writes := [] }
  | some _ =>
      match getBuf with
      | none =>
          { ret := .kCircBufNoResource, inst := inst,
            sizeOut := sizeIn, mallocReq := none, writes := [] }
      | some (pBufBase, bufSize) =>
          if sizeIn > bufSize then
            { ret := .kCircBufNoResource, inst := inst,
              sizeOut := sizeIn, mallocReq := none, writes := [] }
          else
            { ret := .kCircBufOk,
              inst := { inst with
                          pCircBufHeader := some (pBufBase + offsetCircBufHeader),
                          pCircBuf := some (pBufBase + sizeofCircBufHostiBuffer) },
              sizeOut := (sizeIn + (wordModulus - sizeofCircBufHostiBuffer)) % wordModulus,
              mallocReq := none,
              writes := [(pBufBase, CIRCBUF_HOSTIF_UNLOCK)] }

/-- The function `circbuf_freeBuffer`: frees the heap block of a local-only instance
(`OPLK_FREE(pCircBufHeader)`, a no-op on null) and does nothing for a
shared instance.  Returns the (unmodified) instance and the list of
addresses released. -/
def circbuf_freeBuffer (inst : CircBufInstance) : CircBufInstance × List Nat :=
  match inst.pCircBufArchInstance with
  | none =>
      match inst.pCircBufHeader with
      | some a => (inst, [a])
      | none => (inst, [])
  | some _ => (inst, [])

/-- Result of `circbuf_connectBuffer`: return code, updated instance, and
the trace of stores to the shared window (always empty: the function only
reads). -/
structure ConnectResult where
  ret : TCircBufError
  inst : CircBufInstance
  writes : List (Nat × Nat)
  deriving DecidableEq, Repr

/-- The function `circbuf_connectBuffer`: for a shared instance, re-reads base/size via
`hostif_getBuf` and wires header and payload pointers; local-only is a
no-op returning `kCircBufOk`. -/
def circbuf_connectBuffer (getBuf : Option (Nat × Nat))
    (inst : CircBufInstance) : ConnectResult :=
  match inst.pCircBufArchInstance with
  | none => { ret := .kCircBufOk, inst := inst, writes := [] }
  | some _ =>
      match getBuf with
      | none => { ret := .kCircBufNoResource, inst := inst, writes := [] }
      | some (pBufBase, _) =>
          { ret := .kCircBufOk,
            inst := { inst with
                        pCircBufHeader := some (pBufBase + offsetCircBufHeader),
                        pCircBuf := some (pBufBase + sizeofCircBufHostiBuffer) },
            writes := [] }

/-- The address of the lock byte as computed by `circbuf_lock` and
`circbuf_unlock` on a shared instance: `GET_QUEUE_BUF_BASE` of the header
pointer, lock field at offset 0. -/
def circbuf_lockByteAddr (inst : CircBufInstance) : Option Nat :=
  match inst.pCircBufArchInstance, inst.pCircBufHeader with
  | some _, some hp => some (GET_QUEUE_BUF_BASE hp)
  | _, _ => none

/-- The function `circbuf_unlock` on a shared instance: one `HOSTIF_WR8` of
`CIRCBUF_HOSTIF_UNLOCK` to the lock byte; local-only performs no store.
Returns the instance and the write trace. -/
def circbuf_unlock (inst : CircBufInstance) : CircBufInstance × List (Nat × Nat) :=
  match circbuf_lockByteAddr inst with
  | some a => (inst, [(a, CIRCBUF_HOSTIF_UNLOCK)])
  | none => (inst, [])

/-- The spin loop of `circbuf_lock`, run sequentially while the remote CPU
performs no store to the lock byte.  `mem` is the current lock-byte value,
`ws` the values stored so far by this CPU.  Each iteration reads the byte
(`lockValue`), stores `lockId` if it read `CIRCBUF_HOSTIF_UNLOCK` (the
`continue` then re-evaluates the `while` condition on the stale
`lockValue`), and the loop exits when `lockValue` equals `lockId`.
Returns `(last read, final byte, stores)` on termination within `fuel`
iterations, `none` otherwise. -/
def circbuf_lock_loop (lockId : Nat) : Nat → Nat → List Nat → Option (Nat × Nat × List Nat)
  | 0, _, _ => none
  | fuel + 1, mem, ws =>
      let lockValue := mem
      if lockValue = CIRCBUF_HOSTIF_UNLOCK then
        if lockValue ≠ lockId then
          circbuf_lock_loop lockId fuel lockId (ws ++ [lockId])
        else
          some (lockValue, lockId, ws ++ [lockId])
      else
        if lockValue ≠ lockId then
          circbuf_lock_loop lockId fuel mem ws
        else
          some (lockValue, mem, ws)

/-- Control point of one CPU inside `circbuf_lock`/`circbuf_unlock`:
`ready` = about to execute `HOSTIF_RD8` at the loop head, `writing` = has
read `UNLOCK` and is about to execute the `HOSTIF_WR8` of its own
identity, `acquired` = exited the loop having last read its own identity,
`released` = has executed `circbuf_unlock`. -/
inductive CpuPc where
  | ready
  | writing
  | acquired
  | released
  deriving DecidableEq, Repr

/-- One atomic shared-memory access of a CPU with lock identity `lockId`:
returns the new control point and the new lock-byte value. -/
def cpuStep (lockId : Nat) (pc : CpuPc) (lock : Nat) : CpuPc × Nat :=
  match pc with
  | .ready =>
      if lock = CIRCBUF_HOSTIF_UNLOCK then (.writing, lock)
      else if lock = lockId then (.acquired, lock)
      else (.ready, lock)
  | .writing => (.ready, lockId)
  | .acquired => (.released, CIRCBUF_HOSTIF_UNLOCK)
  | .released => (.released, lock)

/-- Which CPU moves: the PCP (lock identity 0x01) or the host (0x02). -/
inductive Cpu where
  | pcp
  | host
  deriving DecidableEq, Repr

/-- Joint state of the two CPUs and the shared one-byte lock. -/
structure LockSys where
  lock : Nat
  pcpPc : CpuPc
  hostPc : CpuPc
  deriving DecidableEq, Repr

/-- One interleaving step: the scheduled CPU performs its next read or
write of the lock byte. -/
def sysStep (c : Cpu) (s : LockSys) : LockSys :=
  match c with
  | .pcp =>
      let r := cpuStep (CIRCBUF_HOSTIF_LOCK true) s.pcpPc s.lock
      { s with pcpPc := r.1, lock := r.2 }
  | .host =>
      let r := cpuStep (CIRCBUF_HOSTIF_LOCK false) s.hostPc s.lock
      { s with hostPc := r.1, lock := r.2 }

/-- Run a schedule (a list of CPU choices) from a state. -/
def sysRun (sched : List Cpu) (s : LockSys) : LockSys :=
  sched.foldl (fun t c => sysStep c t) s

/-- Initial state: lock byte holds `CIRCBUF_HOSTIF_UNLOCK` (as written by
`circbuf_allocBuffer`), both CPUs about to enter `circbuf_lock`. -/
def lockSysInit : LockSys :=
  { lock := CIRCBUF_HOSTIF_UNLOCK, pcpPc := .ready, hostPc := .ready }

/-- Both CPUs are past `circbuf_lock` (each last read back its own LOCK
identity) and neither has run `circbuf_unlock`. -/
def bothAcquired (s : LockSys) : Bool :=
  s.pcpPc = .acquired && s.hostPc = .acquired

/-- Every store the spin loop performs writes its own lock identity:
if the loop returns, every recorded store value equals `lockId` (given the
incoming trace already satisfies this). -/
theorem circbuf_lock_loop_writes_own (lockId : Nat) :
    ∀ (fuel mem : Nat) (ws : List Nat) (r : Nat × Nat × List Nat),
      circbuf_lock_loop lockId fuel mem ws = some r →
      (∀ w ∈ ws, w = lockId) → ∀ w ∈ r.2.2, w = lockId := by
  intro fuel
  induction fuel with
  | zero =>
      intro mem ws r hr
      simp [circbuf_lock_loop] at hr
  | succ n ih =>
      intro mem ws r hr hws
      simp only [circbuf_lock_loop] at hr
      split at hr
      · split at hr
        · refine ih _ _ _ hr ?_
          intro w hw
          rcases List.mem_append.mp hw with h1 | h2
          · exact hws w h1
          · simpa using h2
        · cases hr
          intro w hw
          rcases List.mem_append.mp hw with h1 | h2
          · exact hws w h1
          · simpa using h2
      · split at hr
        · exact ih _ _ _ hr hws
        · cases hr
          exact hws

/-- C1: the claimed mutual exclusion of the shared-buffer spinlock fails.
In the interleaving model of the two CPUs (PCP writing LOCK value 0x01,
host writing 0x02) running `circbuf_lock` on the same lock byte, the
schedule "host reads UNLOCK; PCP reads UNLOCK, writes 0x01, reads back
0x01 and acquires; host writes 0x02, reads back 0x02 and acquires" drives
the system from the initial UNLOCK state to a state in which both CPUs
are simultaneously past `circbuf_lock`, each having last read back its
own LOCK identity, before either has run `circbuf_unlock`. -/
theorem C1_mutual_exclusion_fails :
    sysRun [.host, .pcp, .pcp, .pcp, .host, .host] lockSysInit =
      { lock := CIRCBUF_HOSTIF_LOCK false, pcpPc := .acquired, hostPc := .acquired } ∧
    bothAcquired (sysRun [.host, .pcp, .pcp, .pcp, .host, .host] lockSysInit) = true := by
  exact ⟨rfl, rfl⟩

/-- C2: uncontended acquisition succeeds and terminates.  Starting from a
lock byte holding `CIRCBUF_HOSTIF_UNLOCK` with no remote store during the
call, the `circbuf_lock` loop (whose `continue` after the store
re-evaluates the `while` condition on the stale `lockValue` and so runs a
further iteration) terminates within two iterations for either build
identity and any extra fuel, issues the confirming re-read, and exits
with the last read value equal to the local CPU's own LOCK identity. -/
theorem C2_uncontended_lock_terminates (pcp : Bool) (n : Nat) :
    circbuf_lock_loop (CIRCBUF_HOSTIF_LOCK pcp) (n + 2) CIRCBUF_HOSTIF_UNLOCK [] =
      some (CIRCBUF_HOSTIF_LOCK pcp, CIRCBUF_HOSTIF_LOCK pcp, [CIRCBUF_HOSTIF_LOCK pcp]) := by
  cases pcp <;>
    simp [circbuf_lock_loop, CIRCBUF_HOSTIF_LOCK, CIRCBUF_HOSTIF_UNLOCK]

/-- C3: lock-byte write invariant.  Every store of the lock byte performed
by `circbuf_allocBuffer` or `circbuf_unlock` stores `CIRCBUF_HOSTIF_UNLOCK`,
every store performed by the `circbuf_lock` loop stores the local side's
own `CIRCBUF_HOSTIF_LOCK` identity (0x01 when built with
`CONFIG_HOSTIF_PCP == TRUE`, 0x02 otherwise), the two sides' identities
are distinct, and the own identity is never `UNLOCK` — so no operation of
the layer stores the other side's LOCK value or a fourth value. -/
theorem C3_lock_byte_write_values (pcp : Bool) :
    (∀ (malloc : Nat → Option Nat) (getBuf : Option (Nat × Nat))
       (inst : CircBufInstance) (sizeIn : Nat),
       ∀ w ∈ (circbuf_allocBuffer malloc getBuf inst sizeIn).writes,
         w.2 = CIRCBUF_HOSTIF_UNLOCK) ∧
    (∀ (fuel mem : Nat) (r : Nat × Nat × List Nat),
       circbuf_lock_loop (CIRCBUF_HOSTIF_LOCK pcp) fuel mem [] = some r →
       ∀ w ∈ r.2.2, w = CIRCBUF_HOSTIF_LOCK pcp) ∧
    (∀ inst : CircBufInstance,
       ∀ w ∈ (circbuf_unlock inst).2, w.2 = CIRCBUF_HOSTIF_UNLOCK) ∧
    CIRCBUF_HOSTIF_LOCK pcp ≠ CIRCBUF_HOSTIF_LOCK (!pcp) ∧
    CIRCBUF_HOSTIF_LOCK pcp ≠ CIRCBUF_HOSTIF_UNLOCK := by
  refine ⟨?_, ?_, ?_, ?_, ?_⟩
  · intro malloc getBuf inst sizeIn w hw
    rcases inst with ⟨arch, bid, ph, pb⟩
    cases arch with
    | none =>
        cases hM : malloc ((sizeIn + sizeofCircBufHeader) % wordModulus) <;>
          simp [circbuf_allocBuffer, hM] at hw
    | some h =>
        rcases getBuf with _ | ⟨b, c⟩
        · simp [circbuf_allocBuffer] at hw
        · by_cases hc : sizeIn > c <;> simp [circbuf_allocBuffer, hc] at hw
          subst hw
          rfl
  · intro fuel mem r hr
    exact circbuf_lock_loop_writes_own _ fuel mem [] r hr (by simp)
  · intro inst w hw
    unfold circbuf_unlock at hw
    split at hw
    all_goals simp_all
  · cases pcp <;> decide
  · cases pcp <;> decide

/-- Witness for C3 at concrete inputs: the lock-byte store of a concrete
shared `circbuf_allocBuffer` call carries `CIRCBUF_HOSTIF_UNLOCK`, and the
single store of a concrete PCP `circbuf_lock` run carries the PCP
identity. -/
theorem C3_lock_byte_write_values_witness :
    ((4096, 0) : Nat × Nat).2 = CIRCBUF_HOSTIF_UNLOCK ∧
    (1 : Nat) = CIRCBUF_HOSTIF_LOCK true :=
  ⟨(C3_lock_byte_write_values true).1 (fun _ => none) (some (4096, 100))
      ⟨some 7, 0, none, none⟩ 8 (4096, 0)
      (by simp [circbuf_allocBuffer, CIRCBUF_HOSTIF_UNLOCK]),
   (C3_lock_byte_write_values true).2.1 2 0 (1, 1, [1]) rfl 1 (by simp)⟩

/-- C4: shared allocBuffer failure condition and atomicity.  For a
shared-classified instance, `circbuf_allocBuffer` returns
`kCircBufNoResource` exactly when `hostif_getBuf` fails or the requested
size exceeds the reported capacity, and in either failure case the
instance (header and payload pointers included), the in/out size and the
shared window (no store is performed, the lock byte included) are left
unchanged. -/
theorem C4_shared_alloc_failure (h : Nat) (malloc : Nat → Option Nat)
    (getBuf : Option (Nat × Nat)) (inst : CircBufInstance) (s : Nat)
    (harch : inst.pCircBufArchInstance = some h) :
    ((circbuf_allocBuffer malloc getBuf inst s).ret = .kCircBufNoResource ↔
       getBuf = none ∨ ∃ b c, getBuf = some (b, c) ∧ c < s) ∧
    ((circbuf_allocBuffer malloc getBuf inst s).ret = .kCircBufNoResource →
       (circbuf_allocBuffer malloc getBuf inst s).inst = inst ∧
       (circbuf_allocBuffer malloc getBuf inst s).sizeOut = s ∧
       (circbuf_allocBuffer malloc getBuf inst s).writes = []) := by
  rcases getBuf with _ | ⟨b, c⟩
  · simp [circbuf_allocBuffer, harch]
  · by_cases hc : s > c
    · constructor
      · simp [circbuf_allocBuffer, harch, hc]
        exact ⟨b, c, ⟨rfl, rfl⟩, hc⟩
      · simp [circbuf_allocBuffer, harch, hc]
    · simp [circbuf_allocBuffer, harch, hc]
      omega

/-- Witness for C4 at a concrete shared instance with a failing
`hostif_getBuf`. -/
theorem C4_shared_alloc_failure_witness :
    (circbuf_allocBuffer (fun _ => none) none
        ⟨some 7, 0, none, none⟩ 5).ret = .kCircBufNoResource :=
  (C4_shared_alloc_failure 7 (fun _ => none) none
      ⟨some 7, 0, none, none⟩ 5 rfl).1.mpr (Or.inl rfl)

/-- C5 counterexample: at requested size 0 (less than the envelope size)
on a shared instance with reported capacity 100, `circbuf_allocBuffer`
succeeds, but `size -= sizeof(tCircBufHostiBuffer)` wraps the 32-bit
`size_t`, so the returned size is 2^32 - 28 and the payload region
[pCircBuf, pCircBuf + sizeOut) does not lie within the reported
capacity — refuting the claim for arbitrary requested sizes. -/
theorem C5_counterexample :
    (circbuf_allocBuffer (fun _ => none) (some (4096, 100))
        ⟨some 7, 0, none, none⟩ 0).ret = .kCircBufOk ∧
    (circbuf_allocBuffer (fun _ => none) (some (4096, 100))
        ⟨some 7, 0, none, none⟩ 0).inst.pCircBuf =
      some (4096 + sizeofCircBufHostiBuffer) ∧
    (circbuf_allocBuffer (fun _ => none) (some (4096, 100))
        ⟨some 7, 0, none, none⟩ 0).sizeOut =
      wordModulus - sizeofCircBufHostiBuffer ∧
    ¬ (4096 + sizeofCircBufHostiBuffer +
         (circbuf_allocBuffer (fun _ => none) (some (4096, 100))
             ⟨some 7, 0, none, none⟩ 0).sizeOut ≤ 4096 + 100) := by
  refine ⟨rfl, rfl, by decide, by decide⟩

/-- C5 as amended: the shared allocBuffer success postcondition holds
provided the requested size is at least the envelope size
`sizeof(tCircBufHostiBuffer)` (and is a `size_t` value).  On success the
header pointer is envelope base + 4, the payload pointer is base +
sizeof(envelope), the single store writes `CIRCBUF_HOSTIF_UNLOCK` to the
lock byte at offset 0, the returned size is the requested size reduced by
the envelope size, and the payload region lies within the reported
capacity. -/
theorem C5_amended_shared_alloc_success (h b c s : Nat)
    (malloc : Nat → Option Nat) (inst : CircBufInstance)
    (harch : inst.pCircBufArchInstance = some h)
    (hmin : sizeofCircBufHostiBuffer ≤ s) (hcap : s ≤ c)
    (hword : s < wordModulus) :
    (circbuf_allocBuffer malloc (some (b, c)) inst s).ret = .kCircBufOk ∧
    (circbuf_allocBuffer malloc (some (b, c)) inst s).inst.pCircBufHeader =
      some (b + offsetCircBufHeader) ∧
    (circbuf_allocBuffer malloc (some (b, c)) inst s).inst.pCircBuf =
      some (b + sizeofCircBufHostiBuffer) ∧
    (circbuf_allocBuffer malloc (some (b, c)) inst s).writes =
      [(b, CIRCBUF_HOSTIF_UNLOCK)] ∧
    (circbuf_allocBuffer malloc (some (b, c)) inst s).sizeOut =
      s - sizeofCircBufHostiBuffer ∧
    b + sizeofCircBufHostiBuffer +
        (circbuf_allocBuffer malloc (some (b, c)) inst s).sizeOut ≤ b + c := by
  have hc : ¬ (s > c) := not_lt.mpr hcap
  have hs : sizeofCircBufHostiBuffer = 28 := rfl
  have hM : wordModulus = 4294967296 := by norm_num [wordModulus]
  rw [hs] at hmin
  rw [hM] at hword
  refine ⟨?_, ?_, ?_, ?_, ?_, ?_⟩
  · simp [circbuf_allocBuffer, harch, hc]
  · simp [circbuf_allocBuffer, harch, hc]
  · simp [circbuf_allocBuffer, harch, hc]
  · simp [circbuf_allocBuffer, harch, hc]
  · simp [circbuf_allocBuffer, harch, hc]
    rw [hs, hM]
    omega
  · simp [circbuf_allocBuffer, harch, hc]
    rw [hs, hM]
    omega

/-- Witness for the amended C5 at concrete inputs (requested size 50,
capacity 100, base 4096). -/
theorem C5_amended_witness :
    (circbuf_allocBuffer (fun _ => none) (some (4096, 100))
        ⟨some 7, 3, none, none⟩ 50).sizeOut = 22 := by
  have h := C5_amended_shared_alloc_success 7 4096 100 50 (fun _ => none)
      ⟨some 7, 3, none, none⟩ rfl (by decide) (by decide) (by decide)
  simpa using h.2.2.2.2.1

/-- C6 counterexample: on a local-only instance whose heap allocation
succeeds at address 500, `circbuf_allocBuffer` succeeds and wires the
header pointer to the block start, but performs no store at all (its store
trace is empty), so it does not initialise the header — refuting the
"initialises the header" part of the claim. -/
theorem C6_counterexample :
    (circbuf_allocBuffer (fun _ => some 500) none
        ⟨none, 2, none, none⟩ 8).ret = .kCircBufOk ∧
    (circbuf_allocBuffer (fun _ => some 500) none
        ⟨none, 2, none, none⟩ 8).inst.pCircBufHeader = some 500 ∧
    (circbuf_allocBuffer (fun _ => some 500) none
        ⟨none, 2, none, none⟩ 8).writes = [] := by
  refine ⟨rfl, rfl, rfl⟩

/-- C6 as amended: local-only allocBuffer postcondition without header
initialisation.  For an instance classified local-only,
`circbuf_allocBuffer` requests requested size + sizeof(tCircBufHeader)
bytes from the heap (in 32-bit `size_t` arithmetic), fails with
`kCircBufNoResource` exactly when that allocation fails, leaves the
in/out size parameter equal to the requested size, performs no store,
and on a successful allocation at `a` wires the header pointer to `a`
and the payload pointer to `a + sizeof(tCircBufHeader)`. -/
theorem C6_amended_local_alloc (malloc : Nat → Option Nat)
    (getBuf : Option (Nat × Nat)) (inst : CircBufInstance) (s : Nat)
    (hlocal : inst.pCircBufArchInstance = none) :
    (circbuf_allocBuffer malloc getBuf inst s).mallocReq =
      some ((s + sizeofCircBufHeader) % wordModulus) ∧
    ((circbuf_allocBuffer malloc getBuf inst s).ret = .kCircBufNoResource ↔
      malloc ((s + sizeofCircBufHeader) % wordModulus) = none) ∧
    (circbuf_allocBuffer malloc getBuf inst s).sizeOut = s ∧
    (circbuf_allocBuffer malloc getBuf inst s).writes = [] ∧
    (∀ a, malloc ((s + sizeofCircBufHeader) % wordModulus) = some a →
       (circbuf_allocBuffer malloc getBuf inst s).ret = .kCircBufOk ∧
       (circbuf_allocBuffer malloc getBuf inst s).inst.pCircBufHeader = some a ∧
       (circbuf_allocBuffer malloc getBuf inst s).inst.pCircBuf =
         some (a + sizeofCircBufHeader)) := by
  cases hM : malloc ((s + sizeofCircBufHeader) % wordModulus) <;>
    simp [circbuf_allocBuffer, hlocal, hM]

/-- Witness for the amended C6 at a concrete local-only instance whose
heap allocation succeeds at address 500. -/
theorem C6_amended_witness :
    (circbuf_allocBuffer (fun _ => some 500) none
        ⟨none, 3, none, none⟩ 8).inst.pCircBuf = some (500 + sizeofCircBufHeader) :=
  ((C6_amended_local_alloc (fun _ => some 500) none
      ⟨none, 3, none, none⟩ 8 rfl).2.2.2.2 500 rfl).2.2

/-- C7: createInstance result.  For every id below `NR_OF_CIRC_BUFFERS`,
`circbuf_createInstance` returns null exactly when the registry table maps
the id to a shared slot (entry different from `kHostifInstIdInvalid`) and
`hostif_getInstance(0)` yields no instance; otherwise the returned
instance has `bufferId` equal to the id and `pCircBufArchInstance` null
iff the table entry is `kHostifInstIdInvalid`. -/
theorem C7_createInstance_result (g : Option Nat) (old : CircBufInstance)
    (id : Nat) (hid : id < NR_OF_CIRC_BUFFERS) :
    (circbuf_createInstance g old id = none ↔
       hostifInstanceEntry id ≠ .kHostifInstIdInvalid ∧ g = none) ∧
    (∀ inst, circbuf_createInstance g old id = some inst →
       inst.bufferId = id ∧
       (inst.pCircBufArchInstance = none ↔
          hostifInstanceEntry id = .kHostifInstIdInvalid)) := by
  by_cases ht : hostifInstanceEntry id = .kHostifInstIdInvalid
  · simp [circbuf_createInstance, ht]
  · cases g <;> simp [circbuf_createInstance, ht]

/-- Witness for C7 at id 0 (a shared slot) with a present host-interface
handle: the returned instance carries bufferId 0. -/
theorem C7_createInstance_result_witness :
    (⟨some 7, 0, none, none⟩ : CircBufInstance).bufferId = 0 :=
  ((C7_createInstance_result (some 7) ⟨none, 5, none, none⟩ 0 (by decide)).2
      ⟨some 7, 0, none, none⟩ rfl).1

/-- C8: connectBuffer frame.  `circbuf_connectBuffer` performs no store to
the shared window (its store trace is empty, so neither the lock byte nor
any ring-header field is modified); for a local-only instance it changes
nothing and returns `kCircBufOk`; for a shared instance it returns
`kCircBufNoResource` exactly when `hostif_getBuf` fails, keeps the
classification and id, and on success only re-wires the header and
payload pointers from the reported base. -/
theorem C8_connectBuffer_frame (getBuf : Option (Nat × Nat))
    (inst : CircBufInstance) :
    (circbuf_connectBuffer getBuf inst).writes = [] ∧
    (inst.pCircBufArchInstance = none →
       (circbuf_connectBuffer getBuf inst).inst = inst ∧
       (circbuf_connectBuffer getBuf inst).ret = .kCircBufOk) ∧
    (∀ h, inst.pCircBufArchInstance = some h →
       ((circbuf_connectBuffer getBuf inst).ret = .kCircBufNoResource ↔
          getBuf = none) ∧
       (circbuf_connectBuffer getBuf inst).inst.pCircBufArchInstance =
         inst.pCircBufArchInstance ∧
       (circbuf_connectBuffer getBuf inst).inst.bufferId = inst.bufferId ∧
       (∀ b c, getBuf = some (b, c) →
          (circbuf_connectBuffer getBuf inst).inst.pCircBufHeader =
            some (b + offsetCircBufHeader) ∧
          (circbuf_connectBuffer getBuf inst).inst.pCircBuf =
            some (b + sizeofCircBufHostiBuffer))) := by
  rcases inst with ⟨arch, bid, ph, pb⟩
  cases arch <;> rcases getBuf with _ | ⟨b, c⟩ <;>
    simp [circbuf_connectBuffer]

/-- Witness for C8 at a concrete shared instance and a successful
`hostif_getBuf` reporting base 4096. -/
theorem C8_connectBuffer_frame_witness :
    (circbuf_connectBuffer (some (4096, 100))
        ⟨some 7, 1, none, none⟩).inst.pCircBufHeader =
      some (4096 + offsetCircBufHeader) :=
  (((C8_connectBuffer_frame (some (4096, 100))
        ⟨some 7, 1, none, none⟩).2.2 7 rfl).2.2.2 4096 100 rfl).1

/-- C9: header/envelope pointer round-trip.  `GET_QUEUE_BUF_BASE` applied
to a header pointer derived from an envelope base `b` (i.e. `b` plus the
offset of the `circBufHeader` field, as stored by `circbuf_allocBuffer`
and `circbuf_connectBuffer`) returns `b`; consequently, whenever a shared
`circbuf_allocBuffer` succeeds at base `b`, `circbuf_lock` and
`circbuf_unlock` address the lock byte at offset 0 of that same envelope
— the very address `circbuf_allocBuffer`'s `UNLOCK` store targeted. -/
theorem C9_header_base_roundtrip (b c s h : Nat) (malloc : Nat → Option Nat)
    (inst : CircBufInstance)
    (harch : inst.pCircBufArchInstance = some h) (hb : b < wordModulus) :
    GET_QUEUE_BUF_BASE (b + offsetCircBufHeader) = b ∧
    ((circbuf_allocBuffer malloc (some (b, c)) inst s).ret = .kCircBufOk →
       circbuf_lockByteAddr
           (circbuf_allocBuffer malloc (some (b, c)) inst s).inst = some b ∧
       (circbuf_unlock
           (circbuf_allocBuffer malloc (some (b, c)) inst s).inst).2 =
         [(b, CIRCBUF_HOSTIF_UNLOCK)] ∧
       (circbuf_allocBuffer malloc (some (b, c)) inst s).writes =
         [(b, CIRCBUF_HOSTIF_UNLOCK)]) := by
  have hM : wordModulus = 4294967296 := by norm_num [wordModulus]
  have hrt : GET_QUEUE_BUF_BASE (b + offsetCircBufHeader) = b := by
    unfold GET_QUEUE_BUF_BASE offsetCircBufHeader
    rw [hM] at hb ⊢
    omega
  refine ⟨hrt, ?_⟩
  intro hret
  by_cases hc : s > c
  · exfalso
    simp [circbuf_allocBuffer, harch, hc] at hret
  · simp [circbuf_allocBuffer, circbuf_lockByteAddr, circbuf_unlock,
      harch, hc, hrt]

/-- Witness for C9 at base 4096, capacity 100, requested size 50. -/
theorem C9_header_base_roundtrip_witness :
    circbuf_lockByteAddr
        (circbuf_allocBuffer (fun _ => none) (some (4096, 100))
            ⟨some 7, 4, none, none⟩ 50).inst = some 4096 :=
  ((C9_header_base_roundtrip 4096 100 50 7 (fun _ => none)
      ⟨some 7, 4, none, none⟩ rfl (by norm_num [wordModulus])).2 rfl).1

/-- C10 counterexample: `circbuf_freeBuffer` does not null the stored
header pointer.  On a concrete local-only instance whose block is at
address 100, the first call releases 100 and leaves the instance (its
header pointer included) unchanged, and a second call releases the same
address 100 again — refuting the claim that the pointer is nulled
internally so that the second call frees nothing. -/
theorem C10_counterexample :
    (circbuf_freeBuffer ⟨none, 2, some 100, some 124⟩).1 =
      ⟨none, 2, some 100, some 124⟩ ∧
    (circbuf_freeBuffer ⟨none, 2, some 100, some 124⟩).2 = [100] ∧
    (circbuf_freeBuffer
        (circbuf_freeBuffer ⟨none, 2, some 100, some 124⟩).1).2 = [100] := by
  refine ⟨rfl, rfl, rfl⟩

/-- C10 as amended: `circbuf_freeBuffer` never modifies the instance (in
particular it does not null the header pointer), a shared instance frees
nothing, and a local-only instance with a stored block releases that same
block on the first call and again on a repeated call — avoiding the
double-free is the caller's responsibility. -/
theorem C10_amended_freeBuffer (inst : CircBufInstance) :
    (circbuf_freeBuffer inst).1 = inst ∧
    (∀ h, inst.pCircBufArchInstance = some h →
       (circbuf_freeBuffer inst).2 = []) ∧
    (∀ a, inst.pCircBufArchInstance = none → inst.pCircBufHeader = some a →
       (circbuf_freeBuffer inst).2 = [a] ∧
       (circbuf_freeBuffer (circbuf_freeBuffer inst).1).2 = [a]) := by
  rcases inst with ⟨arch, bid, ph, pb⟩
  cases arch <;> cases ph <;> simp [circbuf_freeBuffer]

/-- Witness for the amended C10 at a concrete local-only instance with its
block at address 200: the repeated call frees 200 again. -/
theorem C10_amended_freeBuffer_witness :
    (circbuf_freeBuffer
        (circbuf_freeBuffer ⟨none, 6, some 200, some 224⟩).1).2 = [200] :=
  ((C10_amended_freeBuffer ⟨none, 6, some 200, some 224⟩).2.2 200 rfl rfl).2
